import Mathlib

/-!
Verification of the Polycom connection-hub core against its source.

The embedding follows the two source files:
  * `src/nettools/HTTPServer/HTTPServer.go` — timing constants, the inbound
    pump (`Reader`), the outbound pump (`Writer` / `_write`) and the
    registration handler (`wsConnect`);
  * `src/Config/config.go` — the configuration record and `Load`.

Machine integers never overflow in the modelled code paths, so they are
modelled as `Nat`.  Byte strings are `List Nat` (byte values).  The websocket
library calls are modelled by their observable effects.
-/

/-! ## Timing and size constants (HTTPServer.go lines 17–22)

Go durations are counted in nanoseconds; `time.Second = 1e9`. -/

def second : Nat := 1000000000

def writeWait : Nat := 5 * second

def pongWait : Nat := 60 * second

def pingPeriod : Nat := (pongWait * 9) / 10

def maxMessageSize : Nat := 512

/-! ## Frame normalization (HTTPServer.go lines 24–27 and 84)

`Newline = []byte{'\r','\n'}`, `Space = []byte{' '}` and the `Reader` loop
does `bytes.TrimSpace(bytes.Replace(message, Newline, Space, -1))`. -/

/-- The bytes Go's `bytes.TrimSpace` strips on ASCII input:
`'\t' '\n' '\v' '\f' '\r' ' '` (unicode.IsSpace restricted to ASCII). -/
def isSpaceByte (b : Nat) : Bool :=
  b == 9 || b == 10 || b == 11 || b == 12 || b == 13 || b == 32

/-- `bytes.Replace(msg, "\r\n", " ", -1)`: replace every non-overlapping
occurrence of CR LF (13 10), scanning left to right, by a single space (32). -/
def replaceCRLF : List Nat → List Nat
  | [] => []
  | [b] => [b]
  | b :: b2 :: rest =>
    if b = 13 ∧ b2 = 10 then 32 :: replaceCRLF rest
    else b :: replaceCRLF (b2 :: rest)

/-- Strip leading whitespace bytes (the left half of `bytes.TrimSpace`). -/
def trimLeft (l : List Nat) : List Nat := l.dropWhile isSpaceByte

/-- Strip trailing whitespace bytes (the right half of `bytes.TrimSpace`). -/
def trimRight (l : List Nat) : List Nat := (l.reverse.dropWhile isSpaceByte).reverse

/-- `bytes.TrimSpace`: strips whitespace from both ends. -/
def trimSpace (l : List Nat) : List Nat := trimRight (trimLeft l)

/-- The normalization the inbound pump applies to every received frame
(HTTPServer.go line 84). -/
def normalizeFrame (msg : List Nat) : List Nat := trimSpace (replaceCRLF msg)

/-! ## Inbound pump (HTTPServer.go `Reader`, lines 57–89)

The loop reads frames until a read returns an error; each successfully read
frame is normalized and dispatched (`go c.CallToAction(c, message)`) exactly
once; on a read error the loop breaks and nothing is dispatched. -/

/-- Outcome of one `conn.ReadMessage()` call. -/
inductive ReadResult where
  | frame (msg : List Nat)
  | fail
deriving DecidableEq

/-- The sequence of payloads the `Reader` loop hands to the action handler,
given the sequence of read outcomes: every successful frame before the first
read error is normalized and dispatched once, in order; the loop stops at the
first error. -/
def readerDispatches : List ReadResult → List (List Nat)
  | [] => []
  | ReadResult.fail :: _ => []
  | ReadResult.frame m :: rest => normalizeFrame m :: readerDispatches rest

/-- The frames successfully received by the inbound pump (the reads that
succeed before the first failure); spec-side description of what gets
dispatched. -/
def framesBeforeFailure : List ReadResult → List (List Nat)
  | [] => []
  | ReadResult.fail :: _ => []
  | ReadResult.frame m :: rest => m :: framesBeforeFailure rest

/-- The claim's trailing-only normalization, written from the spec sentence
"trim trailing whitespace" (for comparison with `normalizeFrame`, which is
what the source computes). -/
def trailingOnlyNormalize (msg : List Nat) : List Nat := trimRight (replaceCRLF msg)

/-! ## Outbound pump (HTTPServer.go `Writer` / `_write`, lines 96–133)

`_write` imposes the `writeWait` deadline before each `WriteMessage`.  The
`Writer` select loop reacts to: a message from `c.Send` (channel closed ⇒
write a CloseNormalClosure frame and return; otherwise write a text frame,
returning on error), the ping ticker, and the `c.Quit` signal (return at
once, no write). -/

/-- A websocket frame written by the outbound pump. -/
inductive WsFrame where
  | text (payload : List Nat)
  | ping
  | close (code : Nat) (reason : String)
deriving DecidableEq

/-- One call to `_write`: the write deadline imposed and the frame written. -/
structure WriteOp where
  deadline : Nat
  frame : WsFrame
deriving DecidableEq

/-- `m._write(conn, mt, message)` — sets the write deadline to `writeWait`
and writes the frame. -/
def mkWrite (f : WsFrame) : WriteOp := ⟨writeWait, f⟩

/-- Why the `Writer` loop returned. -/
inductive WriterExit where
  | normalClosure
  | writeError
  | quitSignal
deriving DecidableEq

/-- One event of the `Writer` select loop. `sendMsg m`: a message arrives on
`c.Send`; `sendClosed`: `c.Send` was closed by its producer (the `ok` flag of
the channel receive is false); `tick`: the ping ticker fires; `quitSig`:
`c.Quit` fires. -/
inductive WriterEvent where
  | sendMsg (m : List Nat)
  | sendClosed
  | tick
  | quitSig
deriving DecidableEq

/-- websocket.CloseNormalClosure. -/
def closeNormalClosure : Nat := 1000

/-- One iteration of the `Writer` select loop.  `ok` tells whether the
`_write` call in that branch (if any) succeeds.  Returns the writes performed
and `some exit` when the loop returns. -/
def writerStep : WriterEvent → Bool → List WriteOp × Option WriterExit
  | WriterEvent.sendMsg m, ok =>
    ([mkWrite (WsFrame.text m)], if ok then none else some WriterExit.writeError)
  | WriterEvent.sendClosed, _ =>
    ([mkWrite (WsFrame.close closeNormalClosure "Disconnected")],
      some WriterExit.normalClosure)
  | WriterEvent.tick, ok =>
    ([mkWrite WsFrame.ping], if ok then none else some WriterExit.writeError)
  | WriterEvent.quitSig, _ => ([], some WriterExit.quitSignal)

/-- The `Writer` loop run over a sequence of events (each paired with whether
its write succeeds): accumulates writes until some step exits. -/
def writerRun : List (WriterEvent × Bool) → List WriteOp × Option WriterExit
  | [] => ([], none)
  | (ev, ok) :: rest =>
    match writerStep ev ok with
    | (ws, some e) => (ws, some e)
    | (ws, none) =>
      let r := writerRun rest
      (ws ++ r.1, r.2)

/-! ## Peer records and registration (HTTPServer.go `wsConnect`, lines 172–199)

The `Hub` package itself is not among the inspected sources; the `Hub.Client`
fields set by `wsConnect` are transcribed from the composite literal at lines
192–194.  The `Send` channel `make(chan []byte, 256)` is modelled by its
capacity bound, and the function/handle fields (`Hub`, `Conn`, `Quit`,
`CallToAction`) are left out of the record: they carry no data the claims
inspect. -/

/-- Peer roles: `Hub.ClientUndefined`, `Hub.ClientUser`, … (roles named in the
spec: Undefined, User, Monitor, Server, Incoming). -/
inductive CType where
  | undefined
  | user
  | monitor
  | server
  | incoming
deriving DecidableEq

/-- Access modes; `Hub.ReadWrite` is the one `wsConnect` uses. -/
inductive Mode where
  | readWrite
  | readOnly
deriving DecidableEq

/-- The data fields of the `Hub.Client` record built by `wsConnect`. -/
structure Client where
  ctype : CType
  sendCapacity : Nat
  identified : Bool
  name : String
  userAgent : String
  mode : Mode
  addr : String
  contentId : Nat
  frontId : String
  appId : String
  country : String
deriving DecidableEq

/-- The composite literal at HTTPServer.go lines 192–194:
`CType: Hub.ClientUndefined, Send: make(chan []byte, 256), Identified: false,
Content_id: 0, Front_id: "", App_id: "", Country: "", Mode: Hub.ReadWrite`. -/
def mkClient (name ua addr : String) : Client :=
  { ctype := CType.undefined
    sendCapacity := 256
    identified := false
    name := name
    userAgent := ua
    mode := Mode.readWrite
    addr := addr
    contentId := 0
    frontId := ""
    appId := ""
    country := "" }

/-- Observable effects of one `wsConnect` call, in program order.
`closeConn` would be a call to `Close()` on the upgraded connection made by
`wsConnect` itself; `register c` is `m.Hub.Register <- c`; `startWriter` is
`go m.Writer(client)`; `runReader` is the (synchronous) `m.Reader(client)`
call, which returns when the inbound pump exits; `unregister c` is
`m.Hub.Unregister <- c`. -/
inductive WsEffect where
  | closeConn
  | register (c : Client)
  | startWriter (c : Client)
  | runReader (c : Client)
  | unregister (c : Client)
deriving DecidableEq

/-- `wsConnect` (HTTPServer.go lines 172–199) as the effect trace it produces.
`upgradeOk`: whether `Upgrader.Upgrade` succeeded; `name`: the
`Sec-Websocket-Key` header value; `uaHeader`: the `User-Agent` header when
present; `addr`: `httpconn.RemoteAddr().String()`; `userExists`: the hub's
`UserExists` predicate.  On upgrade failure the handler just returns; on a
duplicate identity it logs a warning and returns (no close, no record);
otherwise it builds the client, submits it on `Register`, starts the writer,
runs the reader, and finally submits it on `Unregister`. -/
def wsConnect (upgradeOk : Bool) (name : String) (uaHeader : Option String)
    (addr : String) (userExists : String → CType → Bool) : List WsEffect :=
  match upgradeOk with
  | false => []
  | true =>
    let ua := uaHeader.getD "n/a"
    if userExists name CType.user then []
    else
      let client := mkClient name ua addr
      [WsEffect.register client, WsEffect.startWriter client,
        WsEffect.runReader client, WsEffect.unregister client]

/-- A `UserExists` predicate that reports every identity as already present. -/
def existsAlways : String → CType → Bool := fun _ _ => true

/-- A `UserExists` predicate that reports no identity as present. -/
def existsNever : String → CType → Bool := fun _ _ => false

/-! ## Directory admission, modelled from the spec

The Directory (the `Hub` package) is not under the inspected sources; its
admission rule is modelled from the spec: reject on an identity collision for
the record's role, or when the role's configured capacity ceiling is already
reached.  Peers in role Undefined are counted against the Incoming ceiling
(the spec leaves the enforcement point open). -/

/-- Modelled from the spec: the Directory's membership set plus the per-role
capacity ceilings (`Config.ConnectionLimit`). -/
structure Directory where
  members : List (String × CType)
  maxUsersConns : Nat
  maxMonitorsConns : Nat
  maxServersConns : Nat
  maxIncomingConns : Nat
deriving DecidableEq

/-- Modelled from the spec: configured ceiling for a role. -/
def roleCap (d : Directory) : CType → Nat
  | CType.user => d.maxUsersConns
  | CType.monitor => d.maxMonitorsConns
  | CType.server => d.maxServersConns
  | CType.incoming => d.maxIncomingConns
  | CType.undefined => d.maxIncomingConns

/-- Modelled from the spec: number of registered peers in a role. -/
def roleCount (d : Directory) (r : CType) : Nat :=
  (d.members.filter (fun m => m.2 == r)).length

/-- Modelled from the spec: the Directory accepts a record iff no identity
collision exists for its role and the role's ceiling is not yet reached
(`Admit` in the spec; the `Hub` package is not among the inspected sources). -/
def directoryAccepts (d : Directory) (c : Client) : Bool :=
  !(d.members.any (fun m => m.1 == c.name && m.2 == c.ctype)) &&
    roleCount d c.ctype < roleCap d c.ctype

/-- A Directory whose every capacity ceiling is configured to zero. -/
def zeroDirectory : Directory := ⟨[], 0, 0, 0, 0⟩

/-! ## Configuration (config.go)

`Data` flattens the embedded structs of `Config.Data`; `Load` transcribes
`Config.Load`.  The `flag` package is modelled explicitly: `flag.String`
returns a cell holding the default, dereferencing reads the cell, and
`flag.Parse` overwrites the cell from the command line — in the source the
dereference happens before `flag.Parse()`, so the parsed values are never
read.  The ini file is modelled as `Except String IniOverlay`: `Except.error`
when `ini.Load` fails, otherwise the set of keys present (`MapTo` overwrites
exactly the fields whose keys are present). -/

/-- The flattened fields of `Config.Data` (config.go lines 13–65). -/
structure Data where
  Name : String
  LogLevel : Nat
  StartLogging : Bool
  MaxUsersConns : Nat
  MaxMonitorsConns : Nat
  MaxServersConns : Nat
  MaxIncomingConns : Nat
  HTTPaddr : String
  TCPaddr : String
  Servers : Option (List (String × String))
  ReadBufferSize : Nat
  WriteBufferSize : Nat
  HandshakeTimeout : Nat
  ConnectTimeOut : Nat
  WriteTimeOut : Nat
  ScalingCheckServerPeriod : Nat
  HASH_SIZE : Nat
  HEX_KEY : String
  HEX_IV : String
deriving DecidableEq

/-- Command-line values for the two registered flags (`none` = flag absent). -/
structure FlagArgs where
  httpaddr : Option String
  tcpaddr : Option String
deriving DecidableEq

/-- A flag variable: `flag.String(name, default, usage)` returns a pointer to
a cell initialized with the default. -/
structure FlagVar where
  value : String
deriving DecidableEq

/-- `flag.String`: register the flag, cell holds the default. -/
def flagString (dflt : String) : FlagVar := ⟨dflt⟩

/-- Pointer dereference of the flag cell. -/
def derefFlag (v : FlagVar) : String := v.value

/-- `flag.Parse` on one flag: overwrite the cell when the command line
supplies a value. -/
def flagParse (v : FlagVar) (arg : Option String) : FlagVar := ⟨arg.getD v.value⟩

/-- The keys present in a successfully loaded ini file (`none` = key absent,
so `MapTo` leaves the struct field untouched); `knownBrothers` is the
`KnownBrothers` section when present. -/
structure IniOverlay where
  name : Option String
  logLevel : Option Nat
  startLogging : Option Bool
  maxUsersConns : Option Nat
  maxMonitorsConns : Option Nat
  maxServersConns : Option Nat
  maxIncomingConns : Option Nat
  httpaddr : Option String
  tcpaddr : Option String
  readBufferSize : Option Nat
  writeBufferSize : Option Nat
  handshakeTimeout : Option Nat
  connectTimeOut : Option Nat
  writeTimeOut : Option Nat
  scalingCheckServerPeriod : Option Nat
  hashSize : Option Nat
  hexKey : Option String
  hexIV : Option String
  knownBrothers : Option (List (String × String))
deriving DecidableEq

/-- `cfg.MapTo(conf)`: overwrite exactly the fields whose ini keys are
present. -/
def mapTo (c : Data) (o : IniOverlay) : Data :=
  { c with
    Name := o.name.getD c.Name
    LogLevel := o.logLevel.getD c.LogLevel
    StartLogging := o.startLogging.getD c.StartLogging
    MaxUsersConns := o.maxUsersConns.getD c.MaxUsersConns
    MaxMonitorsConns := o.maxMonitorsConns.getD c.MaxMonitorsConns
    MaxServersConns := o.maxServersConns.getD c.MaxServersConns
    MaxIncomingConns := o.maxIncomingConns.getD c.MaxIncomingConns
    HTTPaddr := o.httpaddr.getD c.HTTPaddr
    TCPaddr := o.tcpaddr.getD c.TCPaddr
    ReadBufferSize := o.readBufferSize.getD c.ReadBufferSize
    WriteBufferSize := o.writeBufferSize.getD c.WriteBufferSize
    HandshakeTimeout := o.handshakeTimeout.getD c.HandshakeTimeout
    ConnectTimeOut := o.connectTimeOut.getD c.ConnectTimeOut
    WriteTimeOut := o.writeTimeOut.getD c.WriteTimeOut
    ScalingCheckServerPeriod := o.scalingCheckServerPeriod.getD c.ScalingCheckServerPeriod
    HASH_SIZE := o.hashSize.getD c.HASH_SIZE
    HEX_KEY := o.hexKey.getD c.HEX_KEY
    HEX_IV := o.hexIV.getD c.HEX_IV }

/-- `Config.Load` (config.go lines 67–115).  Builds the default `Data`
literal, assigns `HTTPaddr`/`TCPaddr` by dereferencing the freshly registered
flags, then calls `flag.Parse` (whose effect on the cells is never read
again), then loads the ini file.  On ini failure it returns the defaults
together with the error; on success it maps the ini keys onto the record and
returns the `GetSection("KnownBrothers")` error (which shadows the `MapTo`
error in the source). -/
def Load (args : FlagArgs) (iniResult : Except String IniOverlay) :
    Data × Option String :=
  let conf : Data :=
    { Name := ""
      LogLevel := 4
      StartLogging := true
      MaxUsersConns := 100
      MaxMonitorsConns := 3
      MaxServersConns := 5
      MaxIncomingConns := 50
      HTTPaddr := ""
      TCPaddr := ""
      Servers := none
      ReadBufferSize := 4096
      WriteBufferSize := 4096
      HandshakeTimeout := 5
      ConnectTimeOut := 2
      WriteTimeOut := 1
      ScalingCheckServerPeriod := 10
      HASH_SIZE := 8
      HEX_KEY := "0000000000000000000000000000000000000000000000000000000000000000"
      HEX_IV := "00000000000000000000000000000000" }
  let httpFlag := flagString "localhost:8080"
  let tcpFlag := flagString "localhost:8081"
  let conf := { conf with HTTPaddr := derefFlag httpFlag, TCPaddr := derefFlag tcpFlag }
  let _httpFlag := flagParse httpFlag args.httpaddr
  let _tcpFlag := flagParse tcpFlag args.tcpaddr
  match iniResult with
  | Except.error e => (conf, some e)
  | Except.ok o =>
    let conf := mapTo conf o
    match o.knownBrothers with
    | some kb => ({ conf with Servers := some kb }, none)
    | none => (conf, some "section does not exist")

/-! ## Helper lemmas -/

/-- `replaceCRLF` passes a first byte other than CR through unchanged. -/
theorem replaceCRLF_cons_of_ne (b : Nat) (x : List Nat) (hb : b ≠ 13) :
    replaceCRLF (b :: x) = b :: replaceCRLF x := by
  cases x with
  | nil => rfl
  | cons c t => simp [replaceCRLF, hb]

/-- `trimLeft` drops a leading whitespace byte. -/
theorem trimLeft_cons_ws (b : Nat) (l : List Nat) (hb : isSpaceByte b = true) :
    trimLeft (b :: l) = trimLeft l := by
  simp [trimLeft, List.dropWhile_cons, hb]

/-- The pump normalization absorbs a leading whitespace byte. -/
theorem normalizeFrame_cons_ws (b : Nat) (x : List Nat) (hb : isSpaceByte b = true) :
    normalizeFrame (b :: x) = normalizeFrame x := by
  by_cases hb13 : b = 13
  · subst hb13
    cases x with
    | nil => rfl
    | cons c t =>
      by_cases hc : c = 10
      · subst hc
        show trimSpace (replaceCRLF (13 :: 10 :: t)) = trimSpace (replaceCRLF (10 :: t))
        rw [show replaceCRLF (13 :: 10 :: t) = 32 :: replaceCRLF t by simp [replaceCRLF],
          replaceCRLF_cons_of_ne 10 t (by decide)]
        unfold trimSpace
        rw [trimLeft_cons_ws 32 _ (by decide), trimLeft_cons_ws 10 _ (by decide)]
      · show trimSpace (replaceCRLF (13 :: c :: t)) = trimSpace (replaceCRLF (c :: t))
        rw [show replaceCRLF (13 :: c :: t) = 13 :: replaceCRLF (c :: t) by
          simp [replaceCRLF, hc]]
        unfold trimSpace
        rw [trimLeft_cons_ws 13 _ (by decide)]
  · show trimSpace (replaceCRLF (b :: x)) = trimSpace (replaceCRLF x)
    rw [replaceCRLF_cons_of_ne b x hb13]
    unfold trimSpace
    rw [trimLeft_cons_ws b _ hb]

/-- The pump normalization absorbs any all-whitespace leading segment. -/
theorem normalizeFrame_ws_append (pre m : List Nat) :
    (∀ b ∈ pre, isSpaceByte b = true) → normalizeFrame (pre ++ m) = normalizeFrame m := by
  induction pre with
  | nil => intro _; rfl
  | cons b t ih =>
    intro h
    rw [List.cons_append, normalizeFrame_cons_ws b (t ++ m) (h b (List.mem_cons_self b t))]
    exact ih (fun x hx => h x (List.mem_cons_of_mem b hx))

/-! ## Claim theorems -/

/-- Claim C1 (amended): when the candidate identity already exists in the
Directory under the User role, `wsConnect` refuses the connection by just
returning: no Peer Record is created or submitted, no pump is started, and —
against the claim as stated — the transport handle is not closed either (the
effect trace is empty). -/
theorem duplicate_refusal_empty_trace (up : Bool) (name : String)
    (ua : Option String) (addr : String) (ex : String → CType → Bool)
    (h : ex name CType.user = true) :
    wsConnect up name ua addr ex = [] := by
  cases up <;> simp [wsConnect, h]

/-- Witness for C1: a concrete duplicate connection yields the empty effect
trace. -/
theorem duplicate_refusal_empty_trace_inst :
    existsAlways "peer1" CType.user = true ∧
      wsConnect true "peer1" (some "Mozilla") "10.0.0.1:1024" existsAlways = [] :=
  ⟨rfl, duplicate_refusal_empty_trace true "peer1" (some "Mozilla")
    "10.0.0.1:1024" existsAlways rfl⟩

/-- Counterexample to C1 as stated: on a concrete duplicate connection the
identity check fires, yet `wsConnect` performs no close of the transport
handle (its effect trace is empty, so in particular contains no
`closeConn`). -/
theorem duplicate_refusal_no_close_cex :
    existsAlways "peer1" CType.user = true ∧
      wsConnect true "peer1" (some "Mozilla") "10.0.0.1:1024" existsAlways = [] ∧
      WsEffect.closeConn ∉ wsConnect true "peer1" (some "Mozilla")
        "10.0.0.1:1024" existsAlways := by
  refine ⟨rfl, rfl, ?_⟩
  decide

/-- Claim C2 (amended): the registration protocol never consults an admission
verdict: whenever the duplicate check passes, it submits the record and then
unconditionally starts the outbound pump and runs the inbound pump — even for
a record the Directory's admission rule (modelled from the spec) rejects —
and it never closes the transport handle itself. -/
theorem pumps_started_unconditionally (name : String) (ua : Option String)
    (addr : String) (ex : String → CType → Bool) (d : Directory)
    (h1 : ex name CType.user = false)
    (_h2 : directoryAccepts d (mkClient name (ua.getD "n/a") addr) = false) :
    WsEffect.startWriter (mkClient name (ua.getD "n/a") addr)
        ∈ wsConnect true name ua addr ex ∧
      WsEffect.runReader (mkClient name (ua.getD "n/a") addr)
        ∈ wsConnect true name ua addr ex ∧
      WsEffect.closeConn ∉ wsConnect true name ua addr ex := by
  simp [wsConnect, h1]

/-- Witness for C2: a Directory with zero ceilings rejects the concrete
record, and both pumps are nevertheless started. -/
theorem pumps_started_unconditionally_inst :
    existsNever "peer2" CType.user = false ∧
      directoryAccepts zeroDirectory (mkClient "peer2" "n/a" "10.0.0.2:1024") = false ∧
      (WsEffect.startWriter (mkClient "peer2" "n/a" "10.0.0.2:1024")
          ∈ wsConnect true "peer2" none "10.0.0.2:1024" existsNever ∧
        WsEffect.runReader (mkClient "peer2" "n/a" "10.0.0.2:1024")
          ∈ wsConnect true "peer2" none "10.0.0.2:1024" existsNever ∧
        WsEffect.closeConn ∉ wsConnect true "peer2" none "10.0.0.2:1024" existsNever) :=
  ⟨rfl, by decide,
    pumps_started_unconditionally "peer2" none "10.0.0.2:1024" existsNever
      zeroDirectory rfl (by decide)⟩

/-- Counterexample to C2 as stated: a concrete record that the Directory's
admission rule rejects (every ceiling configured to zero) still gets both its
pumps started, and the transport handle is not closed. -/
theorem rejected_record_pumps_started_cex :
    directoryAccepts zeroDirectory (mkClient "peer9" "n/a" "10.0.0.9:1") = false ∧
      WsEffect.startWriter (mkClient "peer9" "n/a" "10.0.0.9:1")
        ∈ wsConnect true "peer9" none "10.0.0.9:1" existsNever ∧
      WsEffect.runReader (mkClient "peer9" "n/a" "10.0.0.9:1")
        ∈ wsConnect true "peer9" none "10.0.0.9:1" existsNever ∧
      WsEffect.closeConn ∉ wsConnect true "peer9" none "10.0.0.9:1" existsNever := by
  decide

/-- Claim C3: removal is submitted exactly as often as registration (at most
once), and whenever a record was registered the complete trace shows the
`Unregister` submission occurring exactly once, immediately after the inbound
pump (`runReader`) has exited. -/
theorem unregister_once_after_reader (up : Bool) (name : String)
    (ua : Option String) (addr : String) (ex : String → CType → Bool) :
    ((wsConnect up name ua addr ex).count
        (WsEffect.unregister (mkClient name (ua.getD "n/a") addr))
      = (wsConnect up name ua addr ex).count
          (WsEffect.register (mkClient name (ua.getD "n/a") addr))) ∧
    (WsEffect.register (mkClient name (ua.getD "n/a") addr)
        ∈ wsConnect up name ua addr ex →
      wsConnect up name ua addr ex
        = [WsEffect.register (mkClient name (ua.getD "n/a") addr),
            WsEffect.startWriter (mkClient name (ua.getD "n/a") addr),
            WsEffect.runReader (mkClient name (ua.getD "n/a") addr),
            WsEffect.unregister (mkClient name (ua.getD "n/a") addr)]) := by
  cases up with
  | false => simp [wsConnect]
  | true =>
    cases hex : ex name CType.user with
    | true => simp [wsConnect, hex]
    | false => simp [wsConnect, hex, List.count_cons]

/-- Witness for C3: on a concrete registered connection, the removal
submission appears exactly once, after the reader has exited. -/
theorem unregister_once_after_reader_inst :
    ((wsConnect true "peer3" none "10.0.0.3:1" existsNever).count
        (WsEffect.unregister (mkClient "peer3" "n/a" "10.0.0.3:1"))
      = (wsConnect true "peer3" none "10.0.0.3:1" existsNever).count
          (WsEffect.register (mkClient "peer3" "n/a" "10.0.0.3:1"))) ∧
    wsConnect true "peer3" none "10.0.0.3:1" existsNever
      = [WsEffect.register (mkClient "peer3" "n/a" "10.0.0.3:1"),
          WsEffect.startWriter (mkClient "peer3" "n/a" "10.0.0.3:1"),
          WsEffect.runReader (mkClient "peer3" "n/a" "10.0.0.3:1"),
          WsEffect.unregister (mkClient "peer3" "n/a" "10.0.0.3:1")] :=
  ⟨(unregister_once_after_reader true "peer3" none "10.0.0.3:1" existsNever).1,
    (unregister_once_after_reader true "peer3" none "10.0.0.3:1" existsNever).2
      (by decide)⟩

/-- Claim C4 (amended): the inbound pump dispatches the action handler exactly
once per successfully received frame, in order, with the frame normalized by
replacing every CR LF by one space and trimming whitespace from BOTH ends
(`trimSpace`, not trailing-only); reads that fail dispatch nothing and stop
the loop. -/
theorem dispatches_eq_normalized_frames (rs : List ReadResult) :
    readerDispatches rs
      = (framesBeforeFailure rs).map (fun m => trimSpace (replaceCRLF m)) := by
  induction rs with
  | nil => rfl
  | cons r rest ih =>
    cases r with
    | fail => rfl
    | frame m => simp [readerDispatches, framesBeforeFailure, normalizeFrame, ih]

/-- Counterexample to C4 as stated: the frame `" a"` (leading space, bytes
[32, 97]) is dispatched as `"a"`, not as the trailing-only normalization
`" a"` the claim describes. -/
theorem dispatch_not_trailing_only_cex :
    readerDispatches [ReadResult.frame [32, 97]] = [[97]] ∧
      trailingOnlyNormalize [32, 97] = [32, 97] ∧
      readerDispatches [ReadResult.frame [32, 97]]
        ≠ [trailingOnlyNormalize [32, 97]] := by
  decide

/-- Claim C5: the timing and size constants have the stated values and
relation: write deadline 5 s, liveness timeout 60 s, probe period 54 s which
is 9/10 of the liveness timeout, maximum inbound frame size 512 bytes. -/
theorem timing_constants_values :
    writeWait = 5 * second ∧ pongWait = 60 * second ∧
      pingPeriod = 54 * second ∧ pingPeriod * 10 = pongWait * 9 ∧
      maxMessageSize = 512 :=
  ⟨rfl, rfl, rfl, rfl, rfl⟩

/-- Claim C6: when the outbound queue's producer side is closed with no
remaining messages (`sendClosed`), the pump writes exactly one
CloseNormalClosure frame under the `writeWait` deadline and terminates as a
normal closure; when the termination signal fires (`quitSig`), it terminates
immediately without writing anything — in both cases the remaining events are
never processed. -/
theorem writer_close_and_quit_behavior (rest : List (WriterEvent × Bool)) (ok : Bool) :
    writerRun ((WriterEvent.sendClosed, ok) :: rest)
        = ([⟨writeWait, WsFrame.close closeNormalClosure "Disconnected"⟩],
            some WriterExit.normalClosure) ∧
      writerRun ((WriterEvent.quitSig, ok) :: rest)
        = ([], some WriterExit.quitSignal) :=
  ⟨rfl, rfl⟩

/-- Claim C7: when the settings source is missing or unreadable, `Load`
returns the built-in defaults (log level 4, capacities 100/3/5/50, buffer
sizes 4096, handshake timeout 5, …) together with the error itself. -/
theorem load_error_returns_defaults_and_error (args : FlagArgs) (e : String) :
    (Load args (Except.error e)).2 = some e ∧
      (Load args (Except.error e)).1.LogLevel = 4 ∧
      (Load args (Except.error e)).1.StartLogging = true ∧
      (Load args (Except.error e)).1.MaxUsersConns = 100 ∧
      (Load args (Except.error e)).1.MaxMonitorsConns = 3 ∧
      (Load args (Except.error e)).1.MaxServersConns = 5 ∧
      (Load args (Except.error e)).1.MaxIncomingConns = 50 ∧
      (Load args (Except.error e)).1.ReadBufferSize = 4096 ∧
      (Load args (Except.error e)).1.WriteBufferSize = 4096 ∧
      (Load args (Except.error e)).1.HandshakeTimeout = 5 ∧
      (Load args (Except.error e)).1.ConnectTimeOut = 2 ∧
      (Load args (Except.error e)).1.WriteTimeOut = 1 ∧
      (Load args (Except.error e)).1.ScalingCheckServerPeriod = 10 ∧
      (Load args (Except.error e)).1.HASH_SIZE = 8 :=
  ⟨rfl, rfl, rfl, rfl, rfl, rfl, rfl, rfl, rfl, rfl, rfl, rfl, rfl, rfl⟩

/-- Claim C8: `Load` dereferences the flag cells before `flag.Parse`, so its
result does not depend on the command line at all, and on the error path the
address fields hold exactly the flag default strings. -/
theorem load_ignores_command_line_flags (a1 a2 : FlagArgs)
    (r : Except String IniOverlay) (e : String) :
    Load a1 r = Load a2 r ∧
      (Load a1 (Except.error e)).1.HTTPaddr = "localhost:8080" ∧
      (Load a1 (Except.error e)).1.TCPaddr = "localhost:8081" :=
  ⟨rfl, rfl, rfl⟩

/-- Claim C9: the inbound normalization strips leading whitespace as well: a
frame carrying any all-whitespace leading segment is dispatched exactly as
the same frame without it. -/
theorem normalization_strips_leading_whitespace (pre m : List Nat)
    (rest : List ReadResult) (h : ∀ b ∈ pre, isSpaceByte b = true) :
    readerDispatches (ReadResult.frame (pre ++ m) :: rest)
      = readerDispatches (ReadResult.frame m :: rest) := by
  simp [readerDispatches, normalizeFrame_ws_append pre m h]

/-- Witness for C9: the frame with leading blank bytes [32, 9] is dispatched
as the frame without them. -/
theorem normalization_strips_leading_whitespace_inst :
    (∀ b ∈ [32, 9], isSpaceByte b = true) ∧
      readerDispatches [ReadResult.frame ([32, 9] ++ [97])]
        = readerDispatches [ReadResult.frame [97]] :=
  ⟨by decide, normalization_strips_leading_whitespace [32, 9] [97] [] (by decide)⟩

/-- Claim C10: every Peer Record `wsConnect` submits for registration has an
outbound queue bounded at 256, role Undefined, identified flag false, access
mode ReadWrite, and a user agent defaulting to the sentinel "n/a" when the
header is absent. -/
theorem registered_client_fields (name : String) (ua : Option String)
    (addr : String) (ex : String → CType → Bool) (c : Client)
    (h : WsEffect.register c ∈ wsConnect true name ua addr ex) :
    c.sendCapacity = 256 ∧ c.ctype = CType.undefined ∧ c.identified = false ∧
      c.mode = Mode.readWrite ∧ c.userAgent = ua.getD "n/a" := by
  cases hex : ex name CType.user with
  | true => simp [wsConnect, hex] at h
  | false =>
    simp [wsConnect, hex] at h
    subst h
    simp [mkClient]

/-- Witness for C10: the concrete record registered for a connection without
a User-Agent header has capacity 256, role Undefined, identified false, mode
ReadWrite and user agent "n/a". -/
theorem registered_client_fields_inst :
    (WsEffect.register (mkClient "peer4" "n/a" "10.0.0.4:1")
        ∈ wsConnect true "peer4" none "10.0.0.4:1" existsNever) ∧
      ((mkClient "peer4" "n/a" "10.0.0.4:1").sendCapacity = 256 ∧
        (mkClient "peer4" "n/a" "10.0.0.4:1").ctype = CType.undefined ∧
        (mkClient "peer4" "n/a" "10.0.0.4:1").identified = false ∧
        (mkClient "peer4" "n/a" "10.0.0.4:1").mode = Mode.readWrite ∧
        (mkClient "peer4" "n/a" "10.0.0.4:1").userAgent = "n/a") :=
  ⟨by decide,
    registered_client_fields "peer4" none "10.0.0.4:1" existsNever
      (mkClient "peer4" "n/a" "10.0.0.4:1") (by decide)⟩
